import Mathlib

/-!
Verification of the voiceprint-2fa frontend core: the session state machine
(`src/frontend/src/context/auth-provider.tsx`), the enrollment flow
(`src/frontend/src/pages/enroll-voice.tsx`) and the audio capture engine
(`src/frontend/src/components/audio-recorder.tsx` and its unnamed variant).

The TypeScript code is shallowly embedded: React state plus the two
`localStorage` slots and the axios default header become an explicit record,
asynchronous collaborators (JWT decoding, the profile fetch, the enrollment
POST, `getUserMedia`, `MediaRecorder`) become explicit parameters describing
the outcome the environment delivers, and each handler becomes a pure state
transformer.
-/

namespace Voiceprint

/-! ## Session state machine — `src/frontend/src/types/auth.ts` and
`src/frontend/src/context/auth-provider.tsx` -/

/-- `AuthStatus` from `src/frontend/src/types/auth.ts`. -/
inductive AuthStatus where
  | UNAUTHENTICATED
  | PENDING_2FA
  | ONBOARDING_REQUIRED
  | AUTHENTICATED
deriving DecidableEq, Repr

-- The `TokenScope` constants from `src/frontend/src/types/auth.ts`.
namespace TokenScope

def FULL_ACCESS : String := "auth:full"

def TWO_FACTOR_REQUIRED : String := "2fa:required"

def ONBOARDING_REQUIRED : String := "onboarding:required"

end TokenScope

/-- `JWTPayload` from `src/frontend/src/types/auth.ts`.  The interface
declares `scopes: string[]`, but `syncStateWithToken` defends against a
missing claim with `decoded.scopes || []`, so the field is embedded as an
`Option`. -/
structure JWTPayload where
  sub : String
  scopes : Option (List String)
  exp : Int
  iat : Int
deriving DecidableEq, Repr

/-- `User` from `src/frontend/src/types/auth.ts`. -/
structure User where
  id : String
  name : String
  surname : String
  email : String
  username : String
deriving DecidableEq, Repr

/-- One entry of the `ScopeHandler` rule table in
`src/frontend/src/context/auth-provider.tsx`.  The optional `onMatch`
callback is represented by the flag `hasOnMatch`: the only callback in the
source removes the cached phrase (`localStorage.removeItem("phrase")`),
which the transition function performs when the flag is set. -/
structure ScopeHandler where
  scope : String
  status : AuthStatus
  hasOnMatch : Bool
deriving DecidableEq, Repr

/-- `SCOPE_RULES` from `src/frontend/src/context/auth-provider.tsx`,
lines 18–32, in source order. -/
def SCOPE_RULES : List ScopeHandler :=
  [{ scope := TokenScope.FULL_ACCESS, status := .AUTHENTICATED, hasOnMatch := true },
   { scope := TokenScope.TWO_FACTOR_REQUIRED, status := .PENDING_2FA, hasOnMatch := false },
   { scope := TokenScope.ONBOARDING_REQUIRED, status := .ONBOARDING_REQUIRED,
     hasOnMatch := false }]

/-- The provider's observable state: the four React `useState` cells of
`AuthProvider`, the two `localStorage` slots, and the axios default
`Authorization` header. -/
structure AuthState where
  user : Option User
  token : Option String
  phrase : Option String
  status : AuthStatus
  lsToken : Option String
  lsPhrase : Option String
  authHeader : Option String
deriving DecidableEq, Repr

/-- `logout` from `src/frontend/src/context/auth-provider.tsx`,
lines 163–172: removes both storage slots, deletes the header and resets
every state cell. -/
def logout (_s : AuthState) : AuthState :=
  { user := none, token := none, phrase := none, status := .UNAUTHENTICATED,
    lsToken := none, lsPhrase := none, authHeader := none }

/-- `fetchProfile` from `src/frontend/src/context/auth-provider.tsx`,
lines 58–66.  `profileResult` is the outcome of `api.get("/api/v1/users/me")`:
`some u` when the request succeeds, `none` when it throws.  On failure the
handler calls `logout()`. -/
def fetchProfile (profileResult : Option User) (s : AuthState) : AuthState :=
  match profileResult with
  | some u => { s with user := some u }
  | none => logout s

/-- The scope-to-status lookup performed on line 82 of
`src/frontend/src/context/auth-provider.tsx`:
`SCOPE_RULES.find((rule) => scopes.includes(rule.scope))`. -/
def matchedRule (scopes : List String) : Option ScopeHandler :=
  SCOPE_RULES.find? (fun rule => scopes.contains rule.scope)

/-- The status the rule table assigns to a scope list, when any rule
matches. -/
def scopeStatus (scopes : List String) : Option AuthStatus :=
  (matchedRule scopes).map (fun rule => rule.status)

/-- `syncStateWithToken` from `src/frontend/src/context/auth-provider.tsx`,
lines 68–99.  `decodeResult` is the outcome of `jwtDecode(newToken)`
(`none` when it throws) and `profileResult` the outcome of the profile
request, consumed only when the matched rule's status is `AUTHENTICATED`.
Note two faithful details: `setToken(token)` on line 70 stores the *old*
token value in the React cell, and a credential matching no rule leaves the
status untouched (the `if (matchedRule)` block has no `else`). -/
def syncStateWithToken (newToken : String) (newPhrase : Option String)
    (decodeResult : Option JWTPayload) (profileResult : Option User)
    (s : AuthState) : AuthState :=
  let s1 : AuthState :=
    { s with lsToken := some newToken, token := s.token,
             authHeader := some ("Bearer " ++ newToken) }
  let s2 : AuthState :=
    match newPhrase with
    | some p => { s1 with lsPhrase := some p, phrase := some p }
    | none => s1
  match decodeResult with
  | none => logout s2
  | some decoded =>
    let scopes := decoded.scopes.getD []
    match matchedRule scopes with
    | none => s2
    | some rule =>
      let s3 : AuthState := { s2 with status := rule.status }
      let s4 : AuthState :=
        if rule.hasOnMatch then { s3 with lsPhrase := none, phrase := none } else s3
      if rule.status = .AUTHENTICATED then fetchProfile profileResult s4 else s4

/-- The state every logout path ends in. -/
def loggedOutState : AuthState :=
  { user := none, token := none, phrase := none, status := .UNAUTHENTICATED,
    lsToken := none, lsPhrase := none, authHeader := none }

/-! ## Enrollment flow — `src/frontend/src/pages/enroll-voice.tsx` and the
`enrollVoice` guard of `src/frontend/src/context/auth-provider.tsx` -/

/-- The `Recording` record of `src/frontend/src/types/recording.ts` as the
enroll page builds it (`handleSaveRecording`).  The binary blob is
represented by its byte length, and the object URL by a numeric handle
identifier. -/
structure Recording where
  id : String
  filename : String
  blobBytes : Nat
  url : Nat
  size : Nat
  duration : Nat
deriving DecidableEq, Repr

/-- `MIN_RECORDINGS` from `src/frontend/src/pages/enroll-voice.tsx`,
line 13. -/
def MIN_RECORDINGS : Nat := 3

/-- `isReady` from `src/frontend/src/pages/enroll-voice.tsx`, line 77:
`recordings.length >= MIN_RECORDINGS`. -/
def isReady (recordings : List Recording) : Bool :=
  decide (MIN_RECORDINGS ≤ recordings.length)

/-- A `File` handed to `enrollVoice`: a name plus the blob's byte length. -/
structure AudioFile where
  name : String
  bytes : Nat
deriving DecidableEq, Repr

/-- The file list built inside `handleFormSubmit` (lines 58–60):
`new File([rec.blob], ` followed by the index-based name. -/
def submitFiles (recordings : List Recording) : List AudioFile :=
  (recordings.enum).map
    (fun p => { name := "sample_" ++ toString p.1 ++ ".wav", bytes := p.2.blobBytes })

/-- The client-side validation gate of `enrollVoice`
(`src/frontend/src/context/auth-provider.tsx`, lines 143–148):
`voiceEnrollmentSchema` (`src/frontend/src/schemas/auth.ts`) requires at
least three files, and a failed parse makes `enrollVoice` throw the first
issue's message. -/
def voiceEnrollmentCheck (files : List AudioFile) : Except String Unit :=
  if files.length < 3 then
    Except.error "Utworzenie próbki głosu wymaga min. 3 nagrań"
  else Except.ok ()

/-- Observable outcome of one `handleFormSubmit` call. -/
inductive SubmitOutcome where
  | blocked
  | succeeded
  | failed
deriving DecidableEq, Repr

/-- Everything one `handleFormSubmit` call does that the page can observe:
the batch afterwards, the object URLs revoked during the call, the files
handed to `enrollVoice` (if any), the error toast (if any) and the outcome. -/
structure SubmitEffect where
  recordings : List Recording
  revokedUrls : List Nat
  postedFiles : Option (List AudioFile)
  errorToast : Option String
  outcome : SubmitOutcome
deriving DecidableEq, Repr

/-- `handleFormSubmit` from `src/frontend/src/pages/enroll-voice.tsx`,
lines 52–70.  `serverOk` is whether the awaited `enrollVoice(files)` call
resolves.  Below the minimum the handler returns before the `try` block;
in the other branches it only toasts — in no branch does it touch
`recordings` or revoke a URL. -/
def handleFormSubmit (recordings : List Recording) (serverOk : Bool) : SubmitEffect :=
  if recordings.length < MIN_RECORDINGS then
    { recordings := recordings, revokedUrls := [], postedFiles := none,
      errorToast := none, outcome := .blocked }
  else if serverOk then
    { recordings := recordings, revokedUrls := [], postedFiles := some (submitFiles recordings),
      errorToast := none, outcome := .succeeded }
  else
    { recordings := recordings, revokedUrls := [], postedFiles := some (submitFiles recordings),
      errorToast := some "Wystąpił błąd podczas wysyłania.", outcome := .failed }

/-- The unmount cleanup of the enroll page (`useEffect` at lines 72–74):
`recordings.forEach((r) => URL.revokeObjectURL(r.url))` — the URLs revoked
when the page is torn down. -/
def enrollUnmountRevokes (recordings : List Recording) : List Nat :=
  recordings.map (fun r => r.url)

/-- `handleDeleteRecording` from `src/frontend/src/pages/enroll-voice.tsx`,
lines 39–45: revoke the target's URL (when present) and filter it out. -/
def handleDeleteRecording (id : String) (recordings : List Recording) :
    List Recording × List Nat :=
  match recordings.find? (fun r => r.id = id) with
  | some target => (recordings.filter (fun r => r.id ≠ id), [target.url])
  | none => (recordings.filter (fun r => r.id ≠ id), [])

/-- A concrete sample recording used to instantiate theorems on the
enrollment batch. -/
def sampleRec (n : Nat) : Recording :=
  { id := toString n, filename := "probka-" ++ toString n ++ ".wav",
    blobBytes := n + 5, url := n, size := n + 5, duration := 1 }

/-! ## Audio capture engine — `src/frontend/src/components/audio-recorder.tsx`

The component is embedded as a transition system.  React state cells,
the mutable refs (`streamRef`, `timerRef`, `chunksRef`) and the object-URL
bookkeeping become record fields; the asynchronous outcomes of
`getUserMedia` / `MediaRecorder` construction / `recorder.start()` become an
explicit `StartResult`; interval ticks and `ondataavailable` deliveries
become events.  `revoked` records one entry per `URL.revokeObjectURL` call,
and `micHeld` is true exactly while the acquired media stream still has
live (un-stopped) tracks. -/

/-- `RecorderState` from `src/frontend/src/components/audio-recorder.tsx`,
line 10. -/
inductive RecorderState where
  | idle
  | requesting
  | recording
  | paused
  | playing
deriving DecidableEq, Repr

/-- Outcome the environment delivers to one `startRecording()` call.
`recorderFailed` is the path where `getUserMedia` resolved (so
`streamRef.current = stream` already ran) but constructing or starting the
`MediaRecorder` threw. -/
inductive StartResult where
  | deviceDenied
  | recorderFailed
  | started
deriving DecidableEq, Repr

/-- The observable state of one `AudioRecorder` component instance. -/
structure RecState where
  state : RecorderState
  micHeld : Bool
  timerOn : Bool
  recordingTime : Nat
  capturedTime : Nat
  chunks : List Nat
  blobBytes : Option Nat
  audioUrl : Option Nat
  nextUrl : Nat
  duration : Option Nat
  revoked : List Nat
deriving DecidableEq, Repr

/-- Initial state of a freshly mounted recorder. -/
def recInit : RecState :=
  { state := .idle, micHeld := false, timerOn := false, recordingTime := 0,
    capturedTime := 0, chunks := [], blobBytes := none, audioUrl := none,
    nextUrl := 0, duration := none, revoked := [] }

/-- What React runs when the `audioUrl` dependency changes from `old` to
`new`: the cleanup of the effect at lines 155–161 (clear the interval, stop
the stream's tracks, revoke the captured old URL) and, when the old URL was
non-null, the cleanup of the playback effect at lines 129–153 (which also
revokes it).  A non-null old URL is therefore revoked twice here. -/
def effectCleanup (old new_ : Option Nat) (s : RecState) : RecState :=
  if old = new_ then s
  else
    let s1 : RecState := { s with timerOn := false, micHeld := false }
    match old with
    | some v => { s1 with revoked := s1.revoked ++ [v, v] }
    | none => s1

/-- `startRecording` from `src/frontend/src/components/audio-recorder.tsx`,
lines 55–91, given the environment's outcome.  On `deviceDenied` the catch
block reports the error and returns to `idle` with no stream stored.  On
`recorderFailed` the stream was already stored in `streamRef` — and the
catch block does *not* stop its tracks, so the microphone stays held.  On
`started`, `onstart` fires: state `recording`, counter reset to 0 and the
interval started.  The `onstop` closure created here captures the
`recordingTime` value of the render in which the call was made
(`capturedTime`), not the live counter. -/
def startRecording (res : StartResult) (s : RecState) : RecState :=
  match res with
  | .deviceDenied => { s with state := .idle }
  | .recorderFailed => { s with state := .idle, micHeld := true }
  | .started =>
    { s with state := .recording, micHeld := true, timerOn := true,
             capturedTime := s.recordingTime, recordingTime := 0, chunks := [] }

/-- One firing of the 1-second interval installed in `onstart`
(lines 69–71): `setRecordingTime((t) => t + 1)`. -/
def tick (s : RecState) : RecState :=
  if s.timerOn then { s with recordingTime := s.recordingTime + 1 } else s

/-- One `ondataavailable` delivery (line 64): a chunk is kept only when its
size is positive, and only an active recorder emits data. -/
def dataAvailable (bytes : Nat) (s : RecState) : RecState :=
  if s.state = .recording ∧ 0 < bytes then { s with chunks := s.chunks ++ [bytes] } else s

/-- `stopRecording` (lines 93–99) followed by the queued `onstop` handler
(lines 75–83) when the recorder was recording: `stopRecording` clears the
interval and stops the stream's tracks; `onstop` finalizes the blob from
the gathered chunks, creates a fresh object URL, stores the *captured*
counter value as the duration and moves to `paused`. -/
def stopRecording (s : RecState) : RecState :=
  let s1 : RecState := { s with timerOn := false, micHeld := false }
  if s.state = .recording then
    let u := s1.nextUrl
    let old := s1.audioUrl
    let s2 : RecState :=
      { s1 with blobBytes := some s1.chunks.sum, audioUrl := some u, nextUrl := u + 1,
                duration := some s1.capturedTime, state := .paused }
    effectCleanup old (some u) s2
  else s1

/-- `discard` from `src/frontend/src/components/audio-recorder.tsx`,
lines 101–110: revoke the current URL (when present), clear the recording
and return to `idle`; the subsequent `audioUrl` change re-runs the effect
cleanups. -/
def discard (s : RecState) : RecState :=
  let old := s.audioUrl
  let s1 : RecState :=
    { s with revoked := s.revoked ++ (match old with | some v => [v] | none => []),
             blobBytes := none, audioUrl := none, duration := none,
             recordingTime := 0, state := .idle }
  effectCleanup old none s1

/-- Component unmount: the cleanups of both `[audioUrl]` effects run a final
time (lines 145–152 and 155–161): interval cleared, stream tracks stopped,
and the current URL — when present — revoked by each of them. -/
def teardown (s : RecState) : RecState :=
  effectCleanup s.audioUrl none { s with audioUrl := none }

/-- The user/environment events of the recorder. -/
inductive RecEvent where
  | startEv (res : StartResult)
  | tickEv
  | dataEv (bytes : Nat)
  | stopEv
  | discardEv
deriving DecidableEq, Repr

/-- One step of the recorder transition system. -/
def recStep (e : RecEvent) (s : RecState) : RecState :=
  match e with
  | .startEv res => startRecording res s
  | .tickEv => tick s
  | .dataEv bytes => dataAvailable bytes s
  | .stopEv => stopRecording s
  | .discardEv => discard s

/-- Run a sequence of recorder events from a state. -/
def recRun (es : List RecEvent) (s : RecState) : RecState :=
  match es with
  | [] => s
  | e :: rest => recRun rest (recStep e s)

/-- Bookkeeping invariant of the recorder's object-URL lifecycle: the
current URL, if any, was allocated, and every allocated URL is either still
the current one or has already been revoked at least once. -/
def UrlInv (s : RecState) : Prop :=
  (∀ v, s.audioUrl = some v → v < s.nextUrl) ∧
  ∀ u, u < s.nextUrl → s.audioUrl = some u ∨ u ∈ s.revoked

/-! ## The unnamed recorder variant — `src/unnamed/part_001`

This variant adds a lazy encoder initialization (`initEncoder`, lines 8–17)
guarded by an `isReady` flag, and a slightly different stop path.  Errors
reaching the `onError` prop are recorded in `surfacedErrors` (abstract
marker strings, since only their presence matters). -/

/-- State of one `part_001` recorder instance. -/
structure P1State where
  isReady : Bool
  encoderRegistered : Bool
  isRecording : Bool
  micHeld : Bool
  timerOn : Bool
  currentTime : Nat
  capturedTime : Nat
  chunks : List Nat
  blobBytes : Option Nat
  audioUrl : Option Nat
  nextUrl : Nat
  duration : Nat
  surfacedErrors : List String
deriving DecidableEq, Repr

/-- Freshly mounted `part_001` recorder, before its init effect ran. -/
def p1Init : P1State :=
  { isReady := false, encoderRegistered := false, isRecording := false,
    micHeld := false, timerOn := false, currentTime := 0, capturedTime := 0,
    chunks := [], blobBytes := none, audioUrl := none, nextUrl := 0,
    duration := 0, surfacedErrors := [] }

/-- The mount effect `initEncoder().then(() => setIsReady(true))`
(`src/unnamed/part_001`, lines 8–17 and 58–60).  `initEncoder` swallows a
failed `register` with a console warning, so the promise resolves and
`isReady` becomes true whether or not the encoder actually registered. -/
def initEncoderEffect (registerOk : Bool) (s : P1State) : P1State :=
  { s with encoderRegistered := registerOk, isReady := true }

/-- `startRecording` from `src/unnamed/part_001`, lines 62–110.  The guard
on line 63 — `if (!isReady) return;` — silently drops the call: no state
change and no error is surfaced.  When ready, the environment outcome is as
for the named recorder; the `onstop` closure again captures `currentTime`
from the render in which the call was made. -/
def startRecordingP1 (res : StartResult) (s : P1State) : P1State :=
  if s.isReady = false then s
  else
    match res with
    | .deviceDenied =>
      { s with surfacedErrors := s.surfacedErrors ++ ["device-access-error"] }
    | .recorderFailed =>
      { s with micHeld := true,
               surfacedErrors := s.surfacedErrors ++ ["recorder-error"] }
    | .started =>
      { s with isRecording := true, micHeld := true, timerOn := true,
               capturedTime := s.currentTime, currentTime := 0, duration := 0,
               chunks := [] }

/-- One firing of the interval installed in `onstart`
(`src/unnamed/part_001`, lines 81–83). -/
def tickP1 (s : P1State) : P1State :=
  if s.timerOn then { s with currentTime := s.currentTime + 1 } else s

/-- `stopRecording` from `src/unnamed/part_001`, lines 112–115, followed by
the queued `onstop` handler (lines 88–104).  `stopRecording` first writes
the live counter into `duration`; `onstop` then finalizes the blob — and
overwrites `duration` with the *captured* counter value
(`setDuration((prev) => currentTime)` closes over the start-time render),
clears the interval, leaves the recording state and stops the tracks. -/
def stopRecordingP1 (s : P1State) : P1State :=
  let s1 : P1State := { s with duration := s.currentTime }
  if s.isRecording then
    { s1 with blobBytes := some s1.chunks.sum, audioUrl := some s1.nextUrl,
              nextUrl := s1.nextUrl + 1, timerOn := false,
              duration := s1.capturedTime, isRecording := false, micHeld := false }
  else s1

/-! ## Theorems -/

/-- C1: a credential whose decoded scope list includes the full-access scope
is mapped to `AUTHENTICATED` by the ordered first-match-wins rule table of
`syncStateWithToken`, regardless of any other scopes (including step-up
scopes) also present, and an adoption of such a credential with a
successful profile fetch indeed ends with status `AUTHENTICATED`. -/
theorem C1_full_access_always_authenticated (scopes : List String)
    (h : TokenScope.FULL_ACCESS ∈ scopes) :
    scopeStatus scopes = some AuthStatus.AUTHENTICATED ∧
    ∀ (t : String) (ph : Option String) (p : JWTPayload) (u : User) (s : AuthState),
      p.scopes = some scopes →
      (syncStateWithToken t ph (some p) (some u) s).status = AuthStatus.AUTHENTICATED := by
  have hm : matchedRule scopes =
      some { scope := TokenScope.FULL_ACCESS, status := .AUTHENTICATED, hasOnMatch := true } := by
    unfold matchedRule SCOPE_RULES
    simp [List.find?, h]
  refine ⟨by simp [scopeStatus, hm], ?_⟩
  intro t ph p u s hps
  cases ph <;> simp [syncStateWithToken, hps, hm, fetchProfile]

/-- C1 witness: a concrete credential carrying both step-up scopes and the
full-access scope. -/
theorem C1_full_access_always_authenticated_witness :
    TokenScope.FULL_ACCESS ∈ ["2fa:required", "onboarding:required", "auth:full"] ∧
    scopeStatus ["2fa:required", "onboarding:required", "auth:full"] =
      some AuthStatus.AUTHENTICATED ∧
    (syncStateWithToken "tok" none
      (some { sub := "u", scopes := some ["2fa:required", "onboarding:required", "auth:full"],
              exp := 7, iat := 3 })
      (some { id := "1", name := "a", surname := "b", email := "c", username := "d" })
      loggedOutState).status = AuthStatus.AUTHENTICATED := by
  refine ⟨by decide, (C1_full_access_always_authenticated _ (by decide)).1, ?_⟩
  exact (C1_full_access_always_authenticated _ (by decide)).2 "tok" none _ _ loggedOutState rfl

/-- C2 counterexample: adopting a successfully decoded credential whose only
scope is unrecognized (`"foo"`) from a prior `AUTHENTICATED` session leaves
the status `AUTHENTICATED` — not `UNAUTHENTICATED` as the claim states. -/
theorem C2_counterexample :
    (syncStateWithToken "tok2" none
      (some { sub := "u", scopes := some ["foo"], exp := 0, iat := 0 }) none
      { user := none, token := none, phrase := none, status := .AUTHENTICATED,
        lsToken := some "tok1", lsPhrase := none, authHeader := none }).status =
      AuthStatus.AUTHENTICATED := by
  decide

/-- C2 amended: when a successfully decoded credential matches none of the
recognized scopes, `syncStateWithToken` leaves the status unchanged (the
`if (matchedRule)` block has no `else`), while still persisting the new
credential; only a session whose prior status already was `UNAUTHENTICATED`
therefore ends `UNAUTHENTICATED`. -/
theorem C2_unrecognized_scope_keeps_prior_status (t : String) (ph : Option String)
    (p : JWTPayload) (pr : Option User) (s : AuthState)
    (h : matchedRule (p.scopes.getD []) = none) :
    (syncStateWithToken t ph (some p) pr s).status = s.status ∧
    (syncStateWithToken t ph (some p) pr s).lsToken = some t := by
  cases ph <;> simp [syncStateWithToken, h]

/-- C2 witness: a fresh (logged-out) session adopting the unrecognized
credential keeps its `UNAUTHENTICATED` status. -/
theorem C2_unrecognized_scope_keeps_prior_status_witness :
    matchedRule (((some ["foo"] : Option (List String))).getD []) = none ∧
    (syncStateWithToken "tok" none
      (some { sub := "u", scopes := some ["foo"], exp := 0, iat := 0 }) none
      loggedOutState).status = loggedOutState.status := by
  refine ⟨by decide, ?_⟩
  exact (C2_unrecognized_scope_keeps_prior_status "tok" none _ none loggedOutState (by decide)).1

/-- C3: a decode failure, and a profile-fetch failure after the matched rule
made the status `AUTHENTICATED`, each force a full logout: status
`UNAUTHENTICATED`, both persisted slots cleared, no residual user, token,
phrase or header — the exact logged-out state, with no retry path. -/
theorem C3_failure_forces_full_logout (t : String) (ph : Option String)
    (pr : Option User) (s : AuthState) :
    syncStateWithToken t ph none pr s = loggedOutState ∧
    ∀ (p : JWTPayload) (rule : ScopeHandler),
      matchedRule (p.scopes.getD []) = some rule →
      rule.status = AuthStatus.AUTHENTICATED →
      syncStateWithToken t ph (some p) none s = loggedOutState := by
  constructor
  · cases ph <;> simp [syncStateWithToken, logout, loggedOutState]
  · intro p rule hm hs
    cases ph <;>
      simp [syncStateWithToken, hm, hs, fetchProfile, logout, loggedOutState]

/-- C3 witness: a malformed token from a dirty prior state, and a
full-access token whose profile fetch fails, both end in the logged-out
state. -/
theorem C3_failure_forces_full_logout_witness :
    syncStateWithToken "bad" (some "phr") none
      (some { id := "1", name := "a", surname := "b", email := "c", username := "d" })
      { user := none, token := some "old", phrase := some "p", status := .AUTHENTICATED,
        lsToken := some "old", lsPhrase := some "p", authHeader := some "h" } =
      loggedOutState ∧
    matchedRule (((some ["auth:full"] : Option (List String))).getD []) =
      some { scope := TokenScope.FULL_ACCESS, status := .AUTHENTICATED, hasOnMatch := true } ∧
    syncStateWithToken "tok" none
      (some { sub := "u", scopes := some ["auth:full"], exp := 9, iat := 1 }) none
      loggedOutState = loggedOutState := by
  refine ⟨(C3_failure_forces_full_logout "bad" (some "phr") _ _).1, by decide, ?_⟩
  exact (C3_failure_forces_full_logout "tok" none none loggedOutState).2
    { sub := "u", scopes := some ["auth:full"], exp := 9, iat := 1 }
    { scope := TokenScope.FULL_ACCESS, status := .AUTHENTICATED, hasOnMatch := true }
    (by decide) rfl

/-- C10: the credential's `exp`/`iat` claims are never inspected when
deriving the session state — two decoded payloads with equal scope lists
produce identical results from `syncStateWithToken` — and in particular an
expired (`exp = 0`) token carrying the full-access scope still yields
`AUTHENTICATED`. -/
theorem C10_expiry_never_inspected (p1 p2 : JWTPayload) (h : p1.scopes = p2.scopes)
    (t : String) (ph : Option String) (pr : Option User) (s : AuthState) :
    syncStateWithToken t ph (some p1) pr s = syncStateWithToken t ph (some p2) pr s ∧
    ∀ (u : User),
      (syncStateWithToken t ph
        (some { sub := "u", scopes := some [TokenScope.FULL_ACCESS], exp := 0, iat := 0 })
        (some u) s).status = AuthStatus.AUTHENTICATED := by
  constructor
  · simp only [syncStateWithToken, h]
  · intro u
    cases ph <;>
      simp [syncStateWithToken, matchedRule, SCOPE_RULES, List.find?, fetchProfile]

/-- C10 witness: two tokens with the same scopes but different expiry and
issue times are treated identically, and the concrete expired full-access
token authenticates. -/
theorem C10_expiry_never_inspected_witness :
    (JWTPayload.scopes { sub := "a", scopes := some ["2fa:required"], exp := 100, iat := 0 } =
      JWTPayload.scopes { sub := "b", scopes := some ["2fa:required"], exp := -5, iat := 50 }) ∧
    syncStateWithToken "tok" none
        (some { sub := "a", scopes := some ["2fa:required"], exp := 100, iat := 0 }) none
        loggedOutState =
      syncStateWithToken "tok" none
        (some { sub := "b", scopes := some ["2fa:required"], exp := -5, iat := 50 }) none
        loggedOutState ∧
    (syncStateWithToken "tok" none
      (some { sub := "u", scopes := some [TokenScope.FULL_ACCESS], exp := 0, iat := 0 })
      (some { id := "1", name := "a", surname := "b", email := "c", username := "d" })
      loggedOutState).status = AuthStatus.AUTHENTICATED := by
  refine ⟨rfl, ?_, ?_⟩
  · exact (C10_expiry_never_inspected _ _ rfl "tok" none none loggedOutState).1
  · exact (C10_expiry_never_inspected
      { sub := "a", scopes := some ["2fa:required"], exp := 100, iat := 0 }
      { sub := "b", scopes := some ["2fa:required"], exp := -5, iat := 50 }
      rfl "tok" none none loggedOutState).2
      { id := "1", name := "a", surname := "b", email := "c", username := "d" }

/-- C4 counterexample: a successful submit of a full three-recording batch
leaves the batch exactly as it was — not empty — and revokes nothing. -/
theorem C4_counterexample :
    (handleFormSubmit [sampleRec 2, sampleRec 1, sampleRec 0] true).outcome =
      SubmitOutcome.succeeded ∧
    (handleFormSubmit [sampleRec 2, sampleRec 1, sampleRec 0] true).recordings ≠ [] ∧
    (handleFormSubmit [sampleRec 2, sampleRec 1, sampleRec 0] true).revokedUrls = [] := by
  decide

/-- C4 amended: `handleFormSubmit` never mutates the batch and never revokes
a handle — on success exactly as on failure the recordings are left
untouched (so retry without re-recording always works); clearing and
revocation happen only outside the submit path, e.g. the page's unmount
cleanup revokes every member's handle. -/
theorem C4_submit_leaves_batch_untouched (recs : List Recording) (serverOk : Bool) :
    (handleFormSubmit recs serverOk).recordings = recs ∧
    (handleFormSubmit recs serverOk).revokedUrls = [] ∧
    ∀ r ∈ recs, r.url ∈ enrollUnmountRevokes recs := by
  refine ⟨?_, ?_, ?_⟩
  · unfold handleFormSubmit
    split <;> [skip; split] <;> rfl
  · unfold handleFormSubmit
    split <;> [skip; split] <;> rfl
  · intro r hr
    exact List.mem_map_of_mem _ hr

/-- C4 witness: the untouched-batch property at a concrete successful
submit. -/
theorem C4_submit_leaves_batch_untouched_witness :
    (handleFormSubmit [sampleRec 0] true).recordings = [sampleRec 0] ∧
    sampleRec 0 ∈ [sampleRec 0] ∧
    (sampleRec 0).url ∈ enrollUnmountRevokes [sampleRec 0] := by
  refine ⟨(C4_submit_leaves_batch_untouched _ true).1, by decide, ?_⟩
  exact (C4_submit_leaves_batch_untouched [sampleRec 0] true).2.2 (sampleRec 0) (by decide)

/-- C5 counterexample: a submit attempted with a two-recording batch is a
silent no-op — outcome `blocked`, nothing posted, batch unchanged — but no
`ValidationError` (no error of any kind) is raised by the component: the
guard on line 54 returns before the `try` block. -/
theorem C5_counterexample :
    (handleFormSubmit [sampleRec 1, sampleRec 0] true).outcome = SubmitOutcome.blocked ∧
    (handleFormSubmit [sampleRec 1, sampleRec 0] true).errorToast = none ∧
    (handleFormSubmit [sampleRec 1, sampleRec 0] true).postedFiles = none ∧
    (handleFormSubmit [sampleRec 1, sampleRec 0] true).recordings =
      [sampleRec 1, sampleRec 0] := by
  decide

/-- C5 amended: with minimum 3, `isReady` is false exactly below three
recordings; a submit below the minimum is rejected by a silent early return
— no submission is performed, no error is surfaced, and the batch is
unchanged; the `ValidationError` lives one layer down: `enrollVoice` itself
rejects any direct call with fewer than three files with the schema's
validation message. -/
theorem C5_below_minimum_rejected (recs : List Recording) (files : List AudioFile) :
    (isReady recs = false ↔ recs.length < 3) ∧
    (∀ serverOk : Bool, recs.length < 3 →
      handleFormSubmit recs serverOk =
        { recordings := recs, revokedUrls := [], postedFiles := none,
          errorToast := none, outcome := .blocked }) ∧
    (files.length < 3 →
      voiceEnrollmentCheck files =
        Except.error "Utworzenie próbki głosu wymaga min. 3 nagrań") := by
  refine ⟨?_, ?_, ?_⟩
  · simp [isReady, MIN_RECORDINGS]
  · intro serverOk hlen
    simp [handleFormSubmit, MIN_RECORDINGS, hlen]
  · intro hlen
    simp [voiceEnrollmentCheck, hlen]

/-- C5 witness: the boundary and the rejection at a concrete size-2 batch
and a concrete two-file direct call. -/
theorem C5_below_minimum_rejected_witness :
    (isReady [sampleRec 1, sampleRec 0] = false ↔ [sampleRec 1, sampleRec 0].length < 3) ∧
    ([sampleRec 1, sampleRec 0] : List Recording).length < 3 ∧
    handleFormSubmit [sampleRec 1, sampleRec 0] true =
      { recordings := [sampleRec 1, sampleRec 0], revokedUrls := [], postedFiles := none,
        errorToast := none, outcome := .blocked } ∧
    voiceEnrollmentCheck [{ name := "sample_0.wav", bytes := 6 }, { name := "sample_1.wav", bytes := 5 }] =
      Except.error "Utworzenie próbki głosu wymaga min. 3 nagrań" := by
  refine ⟨(C5_below_minimum_rejected [sampleRec 1, sampleRec 0] []).1, by decide, ?_, ?_⟩
  · exact (C5_below_minimum_rejected [sampleRec 1, sampleRec 0] []).2.1 true (by decide)
  · exact (C5_below_minimum_rejected []
      [{ name := "sample_0.wav", bytes := 6 }, { name := "sample_1.wav", bytes := 5 }]).2.2
      (by decide)

/-- C6: the code contradicts the claim — when device acquisition succeeds
but constructing/starting the recorder throws, the catch block returns the
engine to `idle` without stopping the acquired stream's tracks, so the
microphone stays held outside the `recording` state.  (On the normal stop
path the microphone is released, as the second conjunct shows.) -/
theorem C6_mic_leak_on_failed_start :
    ((startRecording .recorderFailed recInit).state = RecorderState.idle ∧
      (startRecording .recorderFailed recInit).micHeld = true) ∧
    (stopRecording (startRecording .started recInit)).micHeld = false := by
  decide

/-- C7: the code contradicts the claim — after start, three 1-second ticks
and stop, the live counter reads 3 and the finalized blob is non-empty, but
the stored duration is the stale `recordingTime` captured by the `onstop`
closure, i.e. 0 rather than 3; the `part_001` variant ends with duration 0
as well, its `onstop` overwriting the value `stopRecording` had just
written. -/
theorem C7_duration_is_stale_zero :
    ((recRun [.startEv .started, .tickEv, .tickEv, .tickEv, .dataEv 4096, .stopEv]
        recInit).recordingTime = 3 ∧
      (recRun [.startEv .started, .tickEv, .tickEv, .tickEv, .dataEv 4096, .stopEv]
        recInit).duration = some 0 ∧
      (recRun [.startEv .started, .tickEv, .tickEv, .tickEv, .dataEv 4096, .stopEv]
        recInit).blobBytes = some 4096) ∧
    (stopRecordingP1 (tickP1 (tickP1 (tickP1
      (startRecordingP1 .started (initEncoderEffect true p1Init)))))).duration = 0 := by
  decide

/-- The URL invariant holds initially. -/
theorem urlInv_init : UrlInv recInit := by
  constructor
  · intro v hv
    simp [recInit] at hv
  · intro u hu
    simp [recInit] at hu

/-- Transfer the URL invariant across a state whose URL bookkeeping fields
agree. -/
theorem UrlInv.transfer {s t : RecState} (h : UrlInv s)
    (ha : t.audioUrl = s.audioUrl) (hn : t.nextUrl = s.nextUrl)
    (hr : ∀ u, u ∈ s.revoked → u ∈ t.revoked) : UrlInv t := by
  obtain ⟨h1, h2⟩ := h
  constructor
  · intro v hv
    rw [ha] at hv
    rw [hn]
    exact h1 v hv
  · intro u hu
    rw [hn] at hu
    rcases h2 u hu with hc | hm
    · left
      rw [ha, hc]
    · right
      exact hr u hm

/-- `effectCleanup` never changes the current URL. -/
theorem effectCleanup_audioUrl (old new_ : Option Nat) (s : RecState) :
    (effectCleanup old new_ s).audioUrl = s.audioUrl := by
  unfold effectCleanup
  split
  · rfl
  · cases old <;> rfl

/-- `effectCleanup` never changes the allocation counter. -/
theorem effectCleanup_nextUrl (old new_ : Option Nat) (s : RecState) :
    (effectCleanup old new_ s).nextUrl = s.nextUrl := by
  unfold effectCleanup
  split
  · rfl
  · cases old <;> rfl

/-- `effectCleanup` only appends to the revocation log. -/
theorem mem_effectCleanup_revoked (old new_ : Option Nat) (s : RecState) (u : Nat)
    (h : u ∈ s.revoked) : u ∈ (effectCleanup old new_ s).revoked := by
  unfold effectCleanup
  split
  · exact h
  · cases old <;> simp [h]

/-- When the URL actually changed away from a non-null `old`, the cleanups
revoke it. -/
theorem old_mem_effectCleanup_revoked (old new_ : Option Nat) (s : RecState) (v : Nat)
    (hne : old ≠ new_) (hv : old = some v) : v ∈ (effectCleanup old new_ s).revoked := by
  unfold effectCleanup
  rw [if_neg hne]
  subst hv
  simp

/-- Every recorder event preserves the URL invariant. -/
theorem urlInv_step (e : RecEvent) (s : RecState) (h : UrlInv s) : UrlInv (recStep e s) := by
  cases e with
  | startEv res =>
    cases res <;>
      exact h.transfer rfl rfl (fun _ hh => hh)
  | tickEv =>
    simp only [recStep, tick]
    split
    · exact h.transfer rfl rfl (fun _ hh => hh)
    · exact h
  | dataEv bytes =>
    simp only [recStep, dataAvailable]
    split
    · exact h.transfer rfl rfl (fun _ hh => hh)
    · exact h
  | stopEv =>
    obtain ⟨h1, h2⟩ := h
    simp only [recStep, stopRecording]
    split
    · constructor
      · intro v hv
        rw [effectCleanup_audioUrl] at hv
        rw [effectCleanup_nextUrl]
        simp at hv ⊢
        omega
      · intro u hu
        rw [effectCleanup_nextUrl] at hu
        simp at hu
        rcases Nat.lt_or_ge u s.nextUrl with hlt | hge
        · rcases h2 u hlt with hc | hm
          · right
            refine old_mem_effectCleanup_revoked _ _ _ u ?_ hc
            rw [hc]
            intro hcontra
            simp at hcontra
            omega
          · right
            exact mem_effectCleanup_revoked _ _ _ u hm
        · left
          rw [effectCleanup_audioUrl]
          simp
          omega
    · exact UrlInv.transfer ⟨h1, h2⟩ rfl rfl (fun _ hh => hh)
  | discardEv =>
    obtain ⟨h1, h2⟩ := h
    simp only [recStep, discard]
    constructor
    · intro v hv
      rw [effectCleanup_audioUrl] at hv
      simp at hv
    · intro u hu
      rw [effectCleanup_nextUrl] at hu
      simp at hu
      right
      rcases h2 u hu with hc | hm
      · refine mem_effectCleanup_revoked _ _ _ u ?_
        simp [hc]
      · refine mem_effectCleanup_revoked _ _ _ u ?_
        cases s.audioUrl <;> simp [hm]

/-- The URL invariant holds after any event sequence from the initial
state. -/
theorem urlInv_run (es : List RecEvent) (s : RecState) (h : UrlInv s) :
    UrlInv (recRun es s) := by
  induction es generalizing s with
  | nil => exact h
  | cons e rest ih => exact ih (recStep e s) (urlInv_step e s h)

/-- C8 counterexample: record, stop and discard one recording — `discard`
revokes object URL 0 and the two `[audioUrl]` effect cleanups each revoke it
again, a triple release of the same handle; likewise, tearing the component
down right after a stop revokes the handle twice (once per cleanup). -/
theorem C8_counterexample :
    (recRun [.startEv .started, .dataEv 7, .stopEv, .discardEv] recInit).revoked =
      [0, 0, 0] ∧
    (teardown (recRun [.startEv .started, .dataEv 7, .stopEv] recInit)).revoked = [0, 0] := by
  decide

/-- C8 amended: no handle is ever leaked — after any sequence of
start/tick/data/stop/discard events followed by engine teardown, every
object URL ever created has been revoked at least once — but revocation is
not exactly-once: discard and the duplicated effect cleanups can release
the same handle two or three times (a no-op for the platform, not a
structural guarantee). -/
theorem C8_every_handle_revoked (es : List RecEvent) (u : Nat)
    (h : u < (recRun es recInit).nextUrl) :
    u ∈ (teardown (recRun es recInit)).revoked := by
  obtain ⟨h1, h2⟩ := urlInv_run es recInit urlInv_init
  unfold teardown
  rcases h2 u h with hc | hm
  · refine old_mem_effectCleanup_revoked _ _ _ u ?_ hc
    rw [hc]
    simp
  · exact mem_effectCleanup_revoked _ _ _ u hm

/-- C8 witness: after one finished recording and teardown, handle 0 was
revoked. -/
theorem C8_every_handle_revoked_witness :
    0 < (recRun [.startEv .started, .stopEv] recInit).nextUrl ∧
    0 ∈ (teardown (recRun [.startEv .started, .stopEv] recInit)).revoked := by
  exact ⟨by decide, C8_every_handle_revoked [.startEv .started, .stopEv] 0 (by decide)⟩

/-- C9 counterexample: a `start()` issued before the encoder initialization
effect has completed (`isReady = false`) is silently dropped — the state is
unchanged and no error whatsoever (in particular no `EncoderNotReadyError`)
is surfaced to the caller. -/
theorem C9_counterexample :
    startRecordingP1 .started p1Init = p1Init ∧
    (startRecordingP1 .started p1Init).surfacedErrors = [] := by
  decide

/-- C9 amended: before the encoder initialization completes, `start()` is a
silent no-op — the guard `if (!isReady) return;` rejects the call without
starting any recording and without surfacing any error, so the engine never
records pre-initialization, but the caller observes nothing. -/
theorem C9_pre_init_start_is_silent (res : StartResult) (s : P1State)
    (h : s.isReady = false) : startRecordingP1 res s = s := by
  simp [startRecordingP1, h]

/-- C9 witness: a concrete pre-initialization `start()` with a granted
device is still a no-op. -/
theorem C9_pre_init_start_is_silent_witness :
    p1Init.isReady = false ∧ startRecordingP1 .started p1Init = p1Init := by
  exact ⟨rfl, C9_pre_init_start_is_silent .started p1Init rfl⟩

end Voiceprint
